import Mathlib

/-
Verification of the strautomator-core PayPal API client
(src/paypal/api.ts): the token-lifecycle manager (authenticate),
the authenticated-request dispatcher (makeRequest) and the error
normalizer (parseResponseError), shallowly embedded as pure Lean
functions.  External effects (the HTTP transport for the token
exchange, the database persistence call, the HTTP transport for
the dispatched request) are passed in as explicit outcome values;
JavaScript exceptions are modeled with Except / sum types.
-/

namespace PayPal

/-- Model of a details entry of a PayPal error body: `{issue, description}`. -/
structure ErrorDetail where
  issue : String
  description : String
  deriving DecidableEq

/-- Model of the body `err.response.data` of a PayPal error response:
optional `name`, optional `message`, and a `details` list. -/
structure ErrorData where
  name : Option String
  message : Option String
  details : List ErrorDetail
  deriving DecidableEq

/-- Model of `err.response`: an optional HTTP status and an optional data
body.  A status of 0 or an empty-string name/message is JS-falsy, which the
embedding checks explicitly where the source relies on truthiness. -/
structure ErrorResponse where
  status : Option Nat
  data : Option ErrorData
  deriving DecidableEq

/-- Model of a JavaScript error value as seen by parseResponseError: an
optional response, plus the string JSON.stringify would produce for the
whole error (kept as an opaque field of the value). -/
structure JsError where
  response : Option ErrorResponse
  serialized : String
  deriving DecidableEq

/-- Model of String.prototype.trim: drop leading and trailing whitespace
characters, written over the character list so that it reduces in the
kernel. -/
def jsTrim (s : String) : String :=
  ⟨((s.data.dropWhile Char.isWhitespace).reverse.dropWhile Char.isWhitespace).reverse⟩

/-- JS truthiness of an optional string: present and non-empty. -/
def truthyStr : Option String → Bool
  | some s => s ≠ ""
  | none => false

/-- JS truthiness of an optional numeric status: present and non-zero. -/
def truthyNat : Option Nat → Bool
  | some n => n ≠ 0
  | none => false

/-- Embedding of parseResponseError (src/paypal/api.ts lines 12-40).
If the error has no response or no response data it is returned unchanged
(Sum.inl); otherwise a single string is built (Sum.inr): "Status <code>"
when the status is truthy, then the body name (else its message) when
truthy, then each details entry as the trimmed "<issue> <description>",
falling back to JSON.stringify of the error when the list stayed empty,
all joined by ", ". -/
def parseResponseError (err : JsError) : JsError ⊕ String :=
  match err.response with
  | none => Sum.inl err
  | some resp =>
    match resp.data with
    | none => Sum.inl err
    | some data =>
      let statusPart : List String :=
        match resp.status with
        | some n => if n ≠ 0 then [s!"Status {n}"] else []
        | none => []
      let namePart : List String :=
        if truthyStr data.name then [data.name.getD ""]
        else if truthyStr data.message then [data.message.getD ""]
        else []
      let detailParts : List String :=
        data.details.map (fun d => jsTrim (d.issue ++ " " ++ d.description))
      let details := statusPart ++ namePart ++ detailParts
      let details := if details.length = 0 then [err.serialized] else details
      Sum.inr (String.intercalate ", " details)

/-- Credential for one endpoint family (PayPalAuth in src/paypal/types):
access token plus computed local expiry timestamp, in unix seconds.  The
timestamp is an Int since the source computes expiresIn + now - 180 with
JS number arithmetic, which can go negative. -/
structure PayPalAuth where
  accessToken : String
  expiresAt : Int
  deriving DecidableEq

/-- Mutable state of the PayPalAPI singleton together with the persisted
appState record: the in-memory auth and mAuth slots (lines 55 and 60) and
the database copies written by appState.set("paypal", ...). -/
structure ApiState where
  auth : Option PayPalAuth
  mAuth : Option PayPalAuth
  dbAuth : Option PayPalAuth
  dbMAuth : Option PayPalAuth
  deriving DecidableEq

/-- Credential slot selected by the mEndpoint flag, as in
`mEndpoint ? this.mAuth : this.auth`. -/
def slot (mEndpoint : Bool) (s : ApiState) : Option PayPalAuth :=
  if mEndpoint then s.mAuth else s.auth

/-- Persisted credential slot selected by the mEndpoint flag. -/
def dbSlot (mEndpoint : Bool) (s : ApiState) : Option PayPalAuth :=
  if mEndpoint then s.dbMAuth else s.dbAuth

/-- Body of a successful token-endpoint response:
`{access_token, expires_in}`, where expires_in may be absent. -/
structure TokenResponse where
  access_token : String
  expires_in : Option Nat
  deriving DecidableEq

/-- Outcome of the axiosRequest call performing the token exchange:
either a parsed response body or a thrown error. -/
inductive ExchangeOutcome where
  | ok (res : TokenResponse)
  | err (e : JsError)
  deriving DecidableEq

/-- Outcome of the database.appState.set call: resolves or rejects. -/
inductive PersistOutcome where
  | ok
  | err (e : JsError)
  deriving DecidableEq

/-- The provider lifetime actually used, embedding the truthiness test
`res.expires_in ? res.expires_in : 3600` of line 108 (0 is JS-falsy). -/
def effectiveExpiresIn (e : Option Nat) : Nat :=
  match e with
  | some n => if n ≠ 0 then n else 3600
  | none => 3600

/-- Embedding of authenticate (src/paypal/api.ts lines 88-130).  The whole
body sits in a try/catch whose catch logs and returns false, so the
function never throws: its result type is a plain Bool paired with the
post-state.  On a successful exchange the token data
`{accessToken := res.access_token, expiresAt := expiresIn + now - 180}`
is written to the in-memory slot first (line 118 or 121) and then
persisted (line 119 or 122); a rejection of the persistence call is
caught by the same catch and yields false with the memory write already
performed. -/
def authenticate (mEndpoint : Bool) (now : Int) (exchange : ExchangeOutcome)
    (persist : PersistOutcome) (s : ApiState) : Bool × ApiState :=
  match exchange with
  | .err _ => (false, s)
  | .ok res =>
    let expiresIn := effectiveExpiresIn res.expires_in
    let tokenData : PayPalAuth :=
      { accessToken := res.access_token, expiresAt := (expiresIn : Int) + now - 180 }
    if mEndpoint then
      let s1 := { s with mAuth := some tokenData }
      match persist with
      | .ok => (true, { s1 with dbMAuth := some tokenData })
      | .err _ => (false, s1)
    else
      let s1 := { s with auth := some tokenData }
      match persist with
      | .ok => (true, { s1 with dbAuth := some tokenData })
      | .err _ => (false, s1)

/-- Header map, modeled as an association list with replace-on-set
semantics (JS object property assignment). -/
def setHeader (hs : List (String × String)) (k v : String) : List (String × String) :=
  if hs.any (fun p => p.1 = k) then
    hs.map (fun p => if p.1 = k then (k, v) else p)
  else hs ++ [(k, v)]

/-- First value bound to a header key, if any. -/
def getHeader (hs : List (String × String)) (k : String) : Option String :=
  match hs with
  | [] => none
  | p :: tl => if p.1 = k then some p.2 else getHeader tl k

/-- Options object passed to makeRequest (the axios option bag): method,
url, an optional headers object, an optional body, and the optional
returnRepresentation flag.  Option models a field that may be absent;
`delete options.returnRepresentation` turns the flag field to none. -/
structure RequestSpec where
  method : String
  url : String
  headers : Option (List (String × String))
  body : Option String
  returnRepresentation : Option Bool
  deriving DecidableEq

/-- Static configuration read from setmeup settings: the base URLs of the
two endpoint families. -/
structure Settings where
  baseUrl : String
  mBaseUrl : String
  deriving DecidableEq

/-- Base URL for the family selected by the mEndpoint flag. -/
def familyBaseUrl (cfg : Settings) (mEndpoint : Bool) : String :=
  if mEndpoint then cfg.mBaseUrl else cfg.baseUrl

/-- Error with which makeRequest rejects.
typeError models the TypeError thrown at line 155 when the credential
slot is still undefined and `.accessToken` is read from it;
notAuthenticated models `new Error("Not authenticated to PayPal")` of
line 146, reachable only if the awaited authenticate call rejected,
which it never does since its body is fully wrapped in try/catch;
transport carries the error thrown by the axiosRequest dispatch. -/
inductive ReqError where
  | typeError
  | notAuthenticated
  | transport (e : JsError)
  deriving DecidableEq

instance : DecidableEq (Except ReqError String) := fun a b =>
  match a, b with
  | .ok x, .ok y =>
    if h : x = y then isTrue (by rw [h]) else isFalse (by intro hc; cases hc; exact h rfl)
  | .error x, .error y =>
    if h : x = y then isTrue (by rw [h]) else isFalse (by intro hc; cases hc; exact h rfl)
  | .ok _, .error _ => isFalse (by intro hc; cases hc)
  | .error _, .ok _ => isFalse (by intro hc; cases hc)

/-- Observable outcome of one makeRequest call: the settled result, the
post-state, the caller-supplied options object as it stands after the
call, the options object handed to the transport when the dispatch was
reached, and how many times authenticate was invoked. -/
structure CallResult where
  result : Except ReqError String
  state : ApiState
  caller : RequestSpec
  sent : Option RequestSpec
  authCalls : Nat
  deriving DecidableEq

/-- Auth phase of makeRequest (lines 139-151): the credential slot is
read once; when it is empty, or present but expired (expiresAt <= now),
one authenticate call is awaited.  Returns the number of authenticate
invocations performed together with the post-state. -/
def afterAuthStep (mEndpoint : Bool) (now : Int) (exchange : ExchangeOutcome)
    (persist : PersistOutcome) (s : ApiState) : Nat × ApiState :=
  match slot mEndpoint s with
  | none => (1, (authenticate mEndpoint now exchange persist s).2)
  | some a =>
    if a.expiresAt ≤ now then (1, (authenticate mEndpoint now exchange persist s).2)
    else (0, s)

/-- Build phase of makeRequest (lines 153-166), applied to the deep clone
of the caller options: ensure a headers object, inject the Bearer token
(line 155), prefix a non-absolute url with the family base url (lines
158-160), and when the returnRepresentation flag is truthy delete it and
set the Prefer header on the same headers object (lines 162-166). -/
def buildOutbound (cfg : Settings) (mEndpoint : Bool) (token : String)
    (options : RequestSpec) : RequestSpec :=
  let hs := match options.headers with
    | none => []
    | some h => h
  let hs := setHeader hs "Authorization" ("Bearer " ++ token)
  let options := { options with headers := some hs }
  let options :=
    if options.url.take 4 ≠ "http" then
      { options with url := familyBaseUrl cfg mEndpoint ++ options.url }
    else options
  if options.returnRepresentation = some true then
    { options with returnRepresentation := none,
                   headers := some (setHeader hs "Prefer" "return=representation") }
  else options

/-- Embedding of makeRequest (src/paypal/api.ts lines 137-177).  The body
first deep-clones the caller options (line 138, `_.cloneDeep`): every
subsequent mutation is applied to the clone, and the caller value is
carried through unchanged to the result.  After the auth phase the slot
is re-read (line 155): when it is still empty, reading accessToken from
undefined throws a TypeError that the outer catch re-raises, and the
transport is never reached; otherwise the outbound options are built and
the request is dispatched via axiosRequest, whose thrown error the outer
catch re-raises.  The inner catch with its notAuthenticated error (line
146) cannot fire, because authenticate resolves to a boolean and never
rejects. -/
def makeRequest (cfg : Settings) (reqOptions : RequestSpec) (mEndpoint : Bool)
    (now : Int) (exchange : ExchangeOutcome) (persist : PersistOutcome)
    (dispatch : Except JsError String) (s : ApiState) : CallResult :=
  let step := afterAuthStep mEndpoint now exchange persist s
  match slot mEndpoint step.2 with
  | none =>
    { result := .error .typeError, state := step.2, caller := reqOptions,
      sent := none, authCalls := step.1 }
  | some cur =>
    let outbound := buildOutbound cfg mEndpoint cur.accessToken reqOptions
    match dispatch with
    | .ok res =>
      { result := .ok res, state := step.2, caller := reqOptions,
        sent := some outbound, authCalls := step.1 }
    | .error e =>
      { result := .error (.transport e), state := step.2, caller := reqOptions,
        sent := some outbound, authCalls := step.1 }

/-- Validity check on the cached credential, as performed by the guards
of makeRequest lines 142 and 148: the slot holds a credential and
expiresAt > now; exactly when this fails, makeRequest invokes
authenticate. -/
def getValid (mEndpoint : Bool) (now : Int) (s : ApiState) : Option PayPalAuth :=
  match slot mEndpoint s with
  | none => none
  | some a => if a.expiresAt ≤ now then none else some a

section HeaderLemmas

/-- Setting a header makes it retrievable: replace branch of setHeader. -/
theorem getHeader_map_self (hs : List (String × String)) (k v : String)
    (h : hs.any (fun p => p.1 = k) = true) :
    getHeader (hs.map (fun p => if p.1 = k then (k, v) else p)) k = some v := by
  induction hs with
  | nil => simp at h
  | cons a tl ih =>
    simp only [List.any_cons, Bool.or_eq_true] at h
    by_cases hak : a.1 = k
    · simp [getHeader, hak]
    · have htl : tl.any (fun p => p.1 = k) = true := by
        rcases h with h | h
        · exact absurd (by simpa using h) hak
        · exact h
      simp only [List.map_cons, getHeader, if_neg hak]
      exact ih htl

/-- Setting a header makes it retrievable: append branch of setHeader. -/
theorem getHeader_append_self (hs : List (String × String)) (k v : String)
    (h : hs.any (fun p => p.1 = k) = false) :
    getHeader (hs ++ [(k, v)]) k = some v := by
  induction hs with
  | nil => simp [getHeader]
  | cons a tl ih =>
    simp only [List.any_cons, Bool.or_eq_false_iff] at h
    have hak : ¬(a.1 = k) := by simpa using h.1
    simp only [List.cons_append, getHeader, if_neg hak]
    exact ih h.2

/-- A header just set is read back with the value that was set. -/
theorem getHeader_setHeader_self (hs : List (String × String)) (k v : String) :
    getHeader (setHeader hs k v) k = some v := by
  unfold setHeader
  by_cases h : hs.any (fun p => p.1 = k) = true
  · rw [if_pos h]
    exact getHeader_map_self hs k v h
  · rw [if_neg h]
    exact getHeader_append_self hs k v (Bool.eq_false_iff.mpr h)

/-- Replace branch of setHeader leaves other keys unchanged. -/
theorem getHeader_map_other (hs : List (String × String)) (k q v : String)
    (hkq : q ≠ k) :
    getHeader (hs.map (fun p => if p.1 = k then (k, v) else p)) q = getHeader hs q := by
  induction hs with
  | nil => rfl
  | cons a tl ih =>
    by_cases hak : a.1 = k
    · have haq : ¬(a.1 = q) := by rw [hak]; exact Ne.symm hkq
      simp only [List.map_cons, getHeader, if_pos hak, if_neg haq,
        if_neg (Ne.symm hkq)]
      exact ih
    · simp only [List.map_cons, getHeader, if_neg hak]
      by_cases haq : a.1 = q
      · simp [haq]
      · simp only [if_neg haq]
        exact ih

/-- Append branch of setHeader leaves other keys unchanged. -/
theorem getHeader_append_other (hs : List (String × String)) (k q v : String)
    (hkq : q ≠ k) :
    getHeader (hs ++ [(k, v)]) q = getHeader hs q := by
  induction hs with
  | nil =>
    show getHeader [(k, v)] q = none
    simp [getHeader, Ne.symm hkq]
  | cons a tl ih =>
    simp only [List.cons_append, getHeader]
    by_cases haq : a.1 = q
    · simp [haq]
    · simp only [if_neg haq]
      exact ih

/-- Setting one header leaves every other header key unchanged. -/
theorem getHeader_setHeader_other (hs : List (String × String)) (k q v : String)
    (hkq : q ≠ k) :
    getHeader (setHeader hs k v) q = getHeader hs q := by
  unfold setHeader
  by_cases h : hs.any (fun p => p.1 = k) = true
  · rw [if_pos h]
    exact getHeader_map_other hs k q v hkq
  · rw [if_neg h]
    exact getHeader_append_other hs k q v hkq

end HeaderLemmas

section StructureLemmas

/-- The auth phase performs one authenticate call exactly when the
validity check fails, and none otherwise. -/
theorem afterAuthStep_fst (m : Bool) (now : Int) (ex : ExchangeOutcome)
    (p : PersistOutcome) (s : ApiState) :
    (afterAuthStep m now ex p s).1 = if (getValid m now s).isSome then 0 else 1 := by
  unfold afterAuthStep getValid
  cases hs : slot m s with
  | none => simp
  | some a =>
    by_cases h : a.expiresAt ≤ now
    · simp [h]
    · simp [h]

/-- The authCalls count reported by makeRequest is the auth-phase count. -/
theorem makeRequest_authCalls (cfg : Settings) (ro : RequestSpec) (m : Bool)
    (now : Int) (ex : ExchangeOutcome) (p : PersistOutcome)
    (d : Except JsError String) (s : ApiState) :
    (makeRequest cfg ro m now ex p d s).authCalls = (afterAuthStep m now ex p s).1 := by
  simp only [makeRequest]
  cases slot m (afterAuthStep m now ex p s).2 with
  | none => rfl
  | some cur => cases d <;> rfl

/-- The caller field reported by makeRequest is the input options value. -/
theorem makeRequest_caller (cfg : Settings) (ro : RequestSpec) (m : Bool)
    (now : Int) (ex : ExchangeOutcome) (p : PersistOutcome)
    (d : Except JsError String) (s : ApiState) :
    (makeRequest cfg ro m now ex p d s).caller = ro := by
  simp only [makeRequest]
  cases slot m (afterAuthStep m now ex p s).2 with
  | none => rfl
  | some cur => cases d <;> rfl

/-- Shape of the sent field: either the transport was never reached, or
it received exactly the outbound options built from the credential
present after the auth phase. -/
theorem makeRequest_sent_shape (cfg : Settings) (ro : RequestSpec) (m : Bool)
    (now : Int) (ex : ExchangeOutcome) (p : PersistOutcome)
    (d : Except JsError String) (s : ApiState) :
    (makeRequest cfg ro m now ex p d s).sent = none ∨
    ∃ cur, slot m (afterAuthStep m now ex p s).2 = some cur ∧
      (makeRequest cfg ro m now ex p d s).sent
        = some (buildOutbound cfg m cur.accessToken ro) := by
  simp only [makeRequest]
  cases hc : slot m (afterAuthStep m now ex p s).2 with
  | none => left; rfl
  | some cur =>
    right
    exact ⟨cur, rfl, by cases d <;> rfl⟩

/-- The outbound options built for a spec with a truthy
returnRepresentation flag carry no flag and do carry the Prefer header. -/
theorem buildOutbound_repr (cfg : Settings) (m : Bool) (token : String)
    (o : RequestSpec) (h : o.returnRepresentation = some true) :
    (buildOutbound cfg m token o).returnRepresentation = none ∧
    getHeader ((buildOutbound cfg m token o).headers.getD []) "Prefer"
      = some "return=representation" := by
  unfold buildOutbound
  by_cases hu : o.url.take 4 = "http" <;>
    simp [hu, h, getHeader_setHeader_self]

/-- Setting the Prefer header does not disturb the Authorization header. -/
theorem getHeader_setPrefer_keeps_auth (hs : List (String × String)) (v : String) :
    getHeader (setHeader hs "Prefer" v) "Authorization" = getHeader hs "Authorization" :=
  getHeader_setHeader_other hs "Prefer" "Authorization" v (by decide)

/-- The outbound options always carry the Bearer token of the credential
they were built from in the Authorization header. -/
theorem buildOutbound_auth (cfg : Settings) (m : Bool) (token : String)
    (o : RequestSpec) :
    getHeader ((buildOutbound cfg m token o).headers.getD []) "Authorization"
      = some ("Bearer " ++ token) := by
  unfold buildOutbound
  by_cases hu : o.url.take 4 = "http" <;>
    by_cases hr : o.returnRepresentation = some true <;>
      simp [hu, hr, getHeader_setHeader_self, getHeader_setPrefer_keeps_auth]

end StructureLemmas

section Examples

/-- Example configuration used by concrete instances. -/
def exCfg : Settings :=
  { baseUrl := "https://api.paypal.com/", mBaseUrl := "https://api-m.paypal.com/" }

/-- Example request options used by concrete instances: relative url,
no headers yet, returnRepresentation requested. -/
def exSpec : RequestSpec :=
  { method := "GET", url := "v1/catalogs/products", headers := none,
    body := none, returnRepresentation := some true }

/-- Empty starting state: nothing cached, nothing persisted. -/
def emptyState : ApiState :=
  { auth := none, mAuth := none, dbAuth := none, dbMAuth := none }

/-- State holding an old credential, cached and persisted, whose expiry
timestamp 100 lies in the past of the times used in the instances. -/
def staleState : ApiState :=
  { auth := some { accessToken := "old", expiresAt := 100 }, mAuth := none,
    dbAuth := some { accessToken := "old", expiresAt := 100 }, dbMAuth := none }

/-- Example transport error carrying no response. -/
def exNetErr : JsError := { response := none, serialized := "net timeout" }

end Examples

section Claims

/-- C1: send/makeRequest with no cached Credential and a failing
authentication attempt rejects without invoking the transport for the
original request — but it rejects with the TypeError raised by reading
accessToken from the still-undefined credential slot, not with the
unauthenticated error: the guard of line 146 is unreachable because
authenticate resolves to a boolean and never rejects, so the claimed
UnauthenticatedError is never produced. -/
theorem makeRequest_missing_auth_rejects_typeError :
    (makeRequest exCfg exSpec false 1000 (.err exNetErr) .ok (.ok "resp") emptyState).result
        = .error .typeError ∧
    (makeRequest exCfg exSpec false 1000 (.err exNetErr) .ok (.ok "resp") emptyState).result
        ≠ .error .notAuthenticated ∧
    (makeRequest exCfg exSpec false 1000 (.err exNetErr) .ok (.ok "resp") emptyState).sent
        = none ∧
    (makeRequest exCfg exSpec false 1000 (.err exNetErr) .ok (.ok "resp") emptyState).authCalls
        = 1 := by
  decide

/-- C2: a successful authenticate at unix time T whose response carries
access_token A and expires_in E stores the Credential with accessToken A
and expiresAt T + E - 180, in memory and in the persisted store; a
missing expires_in is treated as E = 3600. -/
theorem authenticate_success_stores_token (m : Bool) (T : Int) (A : String)
    (E : Nat) (s : ApiState) (hE : E ≠ 0) :
    (authenticate m T (.ok ⟨A, some E⟩) .ok s).1 = true ∧
    slot m (authenticate m T (.ok ⟨A, some E⟩) .ok s).2
      = some ⟨A, (E : Int) + T - 180⟩ ∧
    dbSlot m (authenticate m T (.ok ⟨A, some E⟩) .ok s).2
      = some ⟨A, (E : Int) + T - 180⟩ ∧
    (authenticate m T (.ok ⟨A, none⟩) .ok s).1 = true ∧
    slot m (authenticate m T (.ok ⟨A, none⟩) .ok s).2
      = some ⟨A, (3600 : Int) + T - 180⟩ := by
  cases m <;> simp [authenticate, slot, dbSlot, effectiveExpiresIn, hE]

/-- C2 witness: the response access_token abc, expires_in 3600 received
at unix time 1000 yields the credential abc with expiresAt 4420. -/
theorem authenticate_success_stores_token_witness :
    (authenticate false 1000 (.ok ⟨"abc", some 3600⟩) .ok emptyState).1 = true ∧
    slot false (authenticate false 1000 (.ok ⟨"abc", some 3600⟩) .ok emptyState).2
      = some ⟨"abc", 4420⟩ := by
  have h := authenticate_success_stores_token false 1000 "abc" 3600 emptyState (by decide)
  refine ⟨h.1, ?_⟩
  rw [h.2.1]
  decide

/-- C3: after a successful authenticate at time T with provider lifetime
E, the validity check yields the stored Credential at every time in
[T, T + E - 180) and yields none at every time at or after T + E - 180;
makeRequest triggers its single re-authentication exactly when the check
yields none. -/
theorem getValid_validity_window (m : Bool) (T t : Int) (A : String) (E : Nat)
    (s : ApiState) (hE : E ≠ 0) :
    (T ≤ t → t < T + E - 180 →
      getValid m t (authenticate m T (.ok ⟨A, some E⟩) .ok s).2
        = some ⟨A, (E : Int) + T - 180⟩) ∧
    (T + E - 180 ≤ t →
      getValid m t (authenticate m T (.ok ⟨A, some E⟩) .ok s).2 = none) ∧
    (∀ cfg ro ex p d, (makeRequest cfg ro m t ex p d s).authCalls
        = if (getValid m t s).isSome then 0 else 1) := by
  have hslot : slot m (authenticate m T (.ok ⟨A, some E⟩) .ok s).2
      = some ⟨A, (E : Int) + T - 180⟩ := by
    cases m <;> simp [authenticate, slot, effectiveExpiresIn, hE]
  refine ⟨?_, ?_, ?_⟩
  · intro h1 h2
    unfold getValid
    rw [hslot]
    have hlt : ¬((E : Int) + T - 180 ≤ t) := by omega
    simp [hlt]
  · intro h1
    unfold getValid
    rw [hslot]
    have hle : (E : Int) + T - 180 ≤ t := by omega
    simp [hle]
  · intro cfg ro ex p d
    rw [makeRequest_authCalls, afterAuthStep_fst]

/-- C3 witness: authenticating at time 1000 with lifetime 3600 gives a
credential the validity check returns at time 2000 and refuses at time
4420 = 1000 + 3600 - 180. -/
theorem getValid_validity_window_witness :
    getValid false 2000 (authenticate false 1000 (.ok ⟨"abc", some 3600⟩) .ok emptyState).2
      = some ⟨"abc", 4420⟩ ∧
    getValid false 4420 (authenticate false 1000 (.ok ⟨"abc", some 3600⟩) .ok emptyState).2
      = none := by
  have h1 := getValid_validity_window false 1000 2000 "abc" 3600 emptyState (by decide)
  have h2 := getValid_validity_window false 1000 4420 "abc" 3600 emptyState (by decide)
  refine ⟨?_, ?_⟩
  · rw [h1.1 (by decide) (by decide)]
    decide
  · exact h2.2.1 (by decide)

/-- C4: authenticate is a total function into Bool paired with the
post-state — the source wraps its entire body in a try/catch whose catch
returns false, so it never raises to its caller — and it returns true
exactly when both the token exchange and the persistence write resolved,
false on any failure. -/
theorem authenticate_never_raises (m : Bool) (now : Int) (ex : ExchangeOutcome)
    (p : PersistOutcome) (s : ApiState) :
    (authenticate m now ex p s).1 = true ↔ ((∃ res, ex = .ok res) ∧ p = .ok) := by
  cases ex <;> cases p <;> cases m <;> simp [authenticate]

/-- C5 counterexample: the token exchange succeeds but the persistence
write rejects; authenticate returns false, yet the in-memory credential
for the family has already been replaced — refuting the claim that a
false return always leaves the cached Credential untouched. -/
theorem authenticate_false_modified_memory_cx :
    (authenticate false 1000 (.ok ⟨"new", some 3600⟩) (.err ⟨none, "db down"⟩) staleState).1
      = false ∧
    (authenticate false 1000 (.ok ⟨"new", some 3600⟩) (.err ⟨none, "db down"⟩) staleState).2.auth
      ≠ staleState.auth := by
  decide

/-- C5 amended: whenever authenticate returns false, the persisted store
and the other family are untouched; when the failure was the token
exchange itself the whole state, memory included, is exactly what it was
before; when the exchange succeeded and only the persistence write
failed, the in-memory slot of the family has already been replaced with
the freshly fetched token. -/
theorem authenticate_failure_state (m : Bool) (now : Int) (ex : ExchangeOutcome)
    (p : PersistOutcome) (s : ApiState)
    (h : (authenticate m now ex p s).1 = false) :
    dbSlot m (authenticate m now ex p s).2 = dbSlot m s ∧
    dbSlot (!m) (authenticate m now ex p s).2 = dbSlot (!m) s ∧
    slot (!m) (authenticate m now ex p s).2 = slot (!m) s ∧
    (∀ e, ex = .err e → (authenticate m now ex p s).2 = s) ∧
    (∀ res, ex = .ok res →
      slot m (authenticate m now ex p s).2
        = some ⟨res.access_token, (effectiveExpiresIn res.expires_in : Int) + now - 180⟩) := by
  cases ex with
  | err e => cases m <;> simp [authenticate, slot, dbSlot]
  | ok res =>
    cases p with
    | ok => cases m <;> simp [authenticate] at h
    | err e => cases m <;> simp [authenticate, slot, dbSlot]

/-- C5 witness: a failed exchange at a state holding an old credential
leaves the state, persisted copy included, exactly as it was. -/
theorem authenticate_failure_state_witness :
    dbSlot false (authenticate false 1000 (.err ⟨none, "net down"⟩) .ok staleState).2
      = some ⟨"old", 100⟩ ∧
    (authenticate false 1000 (.err ⟨none, "net down"⟩) .ok staleState).2 = staleState := by
  have h := authenticate_failure_state false 1000 (.err ⟨none, "net down"⟩) .ok staleState
    (by decide)
  refine ⟨?_, h.2.2.2.1 ⟨none, "net down"⟩ rfl⟩
  rw [h.1]
  decide

/-- C6 counterexample: an error carrying no response at all (plain
transport failure) is returned unchanged by parseResponseError — no
human-readable string and no raw serialization is produced — refuting
the claim that every error value is normalized to a string. -/
theorem parseResponseError_no_response_cx :
    parseResponseError ⟨none, "raw error json"⟩ = Sum.inl ⟨none, "raw error json"⟩ ∧
    (parseResponseError ⟨none, "raw error json"⟩).isRight = false := by
  decide

/-- Normalized string described by the amended claim for an error whose
response carries status st and data body d: "Status <code>" when the
status is truthy, then the body name (else its message) when truthy,
then each details entry rendered as the trimmed "<issue> <description>",
with the raw serialization of the error as fallback when nothing was
extractable, all joined by ", ". -/
def claimNormalized (st : Option Nat) (d : ErrorData) (serialized : String) : String :=
  let parts :=
    (match st with
      | some n => if n ≠ 0 then [s!"Status {n}"] else []
      | none => []) ++
    (if truthyStr d.name then [d.name.getD ""]
     else if truthyStr d.message then [d.message.getD ""]
     else []) ++
    d.details.map (fun x => jsTrim (x.issue ++ " " ++ x.description))
  String.intercalate ", " (if parts.length = 0 then [serialized] else parts)

/-- C6 amended: for every error carrying a response with a data body,
parseResponseError builds exactly the claimed string; in particular the
status-422 VALIDATION_ERROR example normalizes to
"Status 422, VALIDATION_ERROR, DUPLICATE already exists".  Errors
without a response or without response data are returned unchanged. -/
theorem parseResponseError_with_body (st : Option Nat) (d : ErrorData) (ser : String) :
    parseResponseError ⟨some ⟨st, some d⟩, ser⟩ = Sum.inr (claimNormalized st d ser) ∧
    parseResponseError
        ⟨some ⟨some 422, some ⟨some "VALIDATION_ERROR", none,
          [⟨"DUPLICATE", "already exists"⟩]⟩⟩, "raw"⟩
      = Sum.inr "Status 422, VALIDATION_ERROR, DUPLICATE already exists" :=
  ⟨rfl, by decide⟩

/-- C7: one makeRequest call invokes authenticate at most once, whatever
the state, the options and the outcomes of the external calls: the
absent and expired branches are mutually exclusive and neither loops. -/
theorem makeRequest_auth_at_most_once (cfg : Settings) (ro : RequestSpec)
    (m : Bool) (now : Int) (ex : ExchangeOutcome) (p : PersistOutcome)
    (d : Except JsError String) (s : ApiState) :
    (makeRequest cfg ro m now ex p d s).authCalls ≤ 1 := by
  rw [makeRequest_authCalls, afterAuthStep_fst]
  split <;> decide

/-- C8: makeRequest leaves the caller-supplied options object unchanged:
line 138 deep-clones it and every mutation (Authorization header, url
resolution, returnRepresentation removal) is applied to the clone, so
the caller value reported after any call equals the input value. -/
theorem makeRequest_preserves_caller (cfg : Settings) (ro : RequestSpec)
    (m : Bool) (now : Int) (ex : ExchangeOutcome) (p : PersistOutcome)
    (d : Except JsError String) (s : ApiState) :
    (makeRequest cfg ro m now ex p d s).caller = ro := by
  simp only [makeRequest]
  cases slot m (afterAuthStep m now ex p s).2 with
  | none => rfl
  | some cur => cases d <;> rfl

/-- C9: whenever the caller options carry returnRepresentation true, the
options handed to the transport carry no returnRepresentation field and
carry the header Prefer return=representation. -/
theorem makeRequest_return_representation (cfg : Settings) (ro : RequestSpec)
    (m : Bool) (now : Int) (ex : ExchangeOutcome) (p : PersistOutcome)
    (d : Except JsError String) (s : ApiState) (o : RequestSpec)
    (h1 : ro.returnRepresentation = some true)
    (h2 : (makeRequest cfg ro m now ex p d s).sent = some o) :
    o.returnRepresentation = none ∧
    getHeader (o.headers.getD []) "Prefer" = some "return=representation" := by
  rcases makeRequest_sent_shape cfg ro m now ex p d s with hn | ⟨cur, _, hsent⟩
  · rw [hn] at h2
    exact absurd h2 (by simp)
  · rw [hsent] at h2
    injection h2 with h2
    subst h2
    exact buildOutbound_repr cfg m cur.accessToken ro h1

/-- C9 witness: dispatching the example options, which request the full
representation, from a state holding a valid credential produces an
outbound spec without the flag and with the Prefer header. -/
theorem makeRequest_return_representation_witness :
    (buildOutbound exCfg false "abc" exSpec).returnRepresentation = none ∧
    getHeader ((buildOutbound exCfg false "abc" exSpec).headers.getD []) "Prefer"
      = some "return=representation" :=
  makeRequest_return_representation exCfg exSpec false 2000 (.ok ⟨"x", none⟩) .ok
    (.ok "resp")
    { auth := some { accessToken := "abc", expiresAt := 4420 }, mAuth := none,
      dbAuth := none, dbMAuth := none }
    (buildOutbound exCfg false "abc" exSpec) rfl rfl

/-- C10 counterexample: a cached Credential exists but is expired; the
re-authentication fails (returns false) because the token exchange
succeeded and only the persistence write rejected — yet the transport
receives the freshly fetched token, Bearer new, in the Authorization
header, not the stale cached token Bearer old, refuting the claim that
every failed re-authentication dispatches with the stale token. -/
theorem makeRequest_fresh_token_after_failed_persist_cx :
    (authenticate false 1000 (.ok ⟨"new", some 3600⟩) (.err ⟨none, "db down"⟩) staleState).1
      = false ∧
    (makeRequest exCfg exSpec false 1000 (.ok ⟨"new", some 3600⟩) (.err ⟨none, "db down"⟩)
        (.ok "resp") staleState).sent
      = some (buildOutbound exCfg false "new" exSpec) ∧
    getHeader ((buildOutbound exCfg false "new" exSpec).headers.getD []) "Authorization"
      = some "Bearer new" ∧
    getHeader ((buildOutbound exCfg false "new" exSpec).headers.getD []) "Authorization"
      ≠ some "Bearer old" := by
  decide

/-- C10 amended: when a cached Credential exists but is expired and the
re-authentication inside makeRequest fails (returns false), the call
does not abort: the transport is always invoked.  The Authorization
header carries the stale cached token when the failure was the token
exchange itself; when the exchange succeeded and only the persistence
write failed, the slot was already replaced at line 121 and the header
carries the freshly fetched token instead. -/
theorem makeRequest_failed_refresh_dispatch (cfg : Settings) (ro : RequestSpec)
    (m : Bool) (now : Int) (ex : ExchangeOutcome) (p : PersistOutcome)
    (d : Except JsError String) (s : ApiState) (a : PayPalAuth)
    (hslot : slot m s = some a) (hexp : a.expiresAt ≤ now) :
    (∀ e, ex = .err e →
      (makeRequest cfg ro m now ex p d s).sent
        = some (buildOutbound cfg m a.accessToken ro) ∧
      getHeader ((buildOutbound cfg m a.accessToken ro).headers.getD []) "Authorization"
        = some ("Bearer " ++ a.accessToken)) ∧
    (∀ res e, ex = .ok res → p = .err e →
      (makeRequest cfg ro m now ex p d s).sent
        = some (buildOutbound cfg m res.access_token ro) ∧
      getHeader ((buildOutbound cfg m res.access_token ro).headers.getD []) "Authorization"
        = some ("Bearer " ++ res.access_token)) ∧
    ((authenticate m now ex p s).1 = false →
      (makeRequest cfg ro m now ex p d s).sent ≠ none ∧
      (makeRequest cfg ro m now ex p d s).result ≠ .error .typeError ∧
      (makeRequest cfg ro m now ex p d s).result ≠ .error .notAuthenticated) := by
  have hstep : afterAuthStep m now ex p s = (1, (authenticate m now ex p s).2) := by
    unfold afterAuthStep
    rw [hslot]
    simp [hexp]
  have hkey : ∀ cur, slot m (afterAuthStep m now ex p s).2 = some cur →
      (makeRequest cfg ro m now ex p d s).sent
        = some (buildOutbound cfg m cur.accessToken ro) ∧
      (makeRequest cfg ro m now ex p d s).result ≠ .error .typeError ∧
      (makeRequest cfg ro m now ex p d s).result ≠ .error .notAuthenticated := by
    intro cur hc
    simp only [makeRequest]
    rw [hc]
    cases d <;> simp
  refine ⟨?_, ?_, ?_⟩
  · intro e he
    subst he
    have hc : slot m (afterAuthStep m now (.err e) p s).2 = some a := by
      rw [hstep]
      simpa [authenticate] using hslot
    exact ⟨(hkey a hc).1, buildOutbound_auth cfg m a.accessToken ro⟩
  · intro res e hex hp
    subst hex
    subst hp
    have hc : slot m (afterAuthStep m now (.ok res) (.err e) s).2
        = some ⟨res.access_token, (effectiveExpiresIn res.expires_in : Int) + now - 180⟩ := by
      rw [hstep]
      cases m <;> simp [authenticate, slot]
    exact ⟨(hkey _ hc).1, buildOutbound_auth cfg m res.access_token ro⟩
  · intro hf
    cases ex with
    | err e =>
      have hc : slot m (afterAuthStep m now (.err e) p s).2 = some a := by
        rw [hstep]
        simpa [authenticate] using hslot
      have h2 := hkey a hc
      refine ⟨?_, h2.2.1, h2.2.2⟩
      rw [h2.1]
      simp
    | ok res =>
      cases p with
      | ok => cases m <;> simp [authenticate] at hf
      | err e =>
        have hc : slot m (afterAuthStep m now (.ok res) (.err e) s).2
            = some ⟨res.access_token, (effectiveExpiresIn res.expires_in : Int) + now - 180⟩ := by
          rw [hstep]
          cases m <;> simp [authenticate, slot]
        have h2 := hkey _ hc
        refine ⟨?_, h2.2.1, h2.2.2⟩
        rw [h2.1]
        simp

/-- C10 witness: at time 1000 the credential old with expiry 100 is
expired; with the token-endpoint request failing outright, the transport
still receives the outbound options carrying Bearer old. -/
theorem makeRequest_failed_refresh_dispatch_witness :
    (makeRequest exCfg exSpec false 1000 (.err exNetErr) .ok (.ok "resp") staleState).sent
      = some (buildOutbound exCfg false "old" exSpec) ∧
    getHeader ((buildOutbound exCfg false "old" exSpec).headers.getD []) "Authorization"
      = some "Bearer old" := by
  have h := makeRequest_failed_refresh_dispatch exCfg exSpec false 1000 (.err exNetErr) .ok
    (.ok "resp") staleState ⟨"old", 100⟩ (by decide) (by decide)
  have h1 := h.1 exNetErr rfl
  exact ⟨h1.1, by decide⟩

end Claims

end PayPal
